import Mathlib

/-
Verification of the fallback supervisor in azure_startup.py.

The module-level script attempts to import and run the primary application
(from azure_startup_main import main; main()).  An ImportError drops into a
fallback HTTP server (MinimalHealthHandler); any other exception drops into a
debugging keep-alive loop.  If the fallback server itself fails to start, a
60-second keep-alive loop runs forever.

The embedding below models the JSON values exchanged, the three handler
methods (do_GET, do_POST, do_HEAD), the shared last_cleanup_result state, the
module-level tier selection, and the keep-alive loop.  External collaborators
(the stdlib JSON decoder json.loads and the cleanup coroutine
run_cleanup_operation from cleanup_api) are parameters of the handler
functions, as are the wall-clock timestamps.
-/

/-- JSON values, as produced by json.loads and json.dumps.  Numbers are
modelled as integers (every number appearing in the handler logic is an
integer); objects are association lists in insertion order, matching a
Python dict. -/
inductive Json where
  | null
  | bool (b : Bool)
  | num (n : Int)
  | str (s : String)
  | arr (elems : List Json)
  | obj (fields : List (String × Json))

/-- Python dict lookup (dict.get with no default) on the association-list
representation of a JSON object. -/
def lookupField : List (String × Json) → String → Option Json
  | [], _ => none
  | (k, v) :: rest, key => if k = key then some v else lookupField rest key

/-- Outcome of awaiting run_cleanup_operation(retention_hours): either it
returns a CleanupResult dict, or the invocation raises with some message.
The collaborator contract (cleanup_api) is that a completed run yields a
dict, so the returning branch carries the dict fields. -/
inductive CleanupOutcome where
  | returns (fields : List (String × Json))
  | raises (msg : String)

/-- Outcome of the body-reading phase of do_POST (lines 163-164): either
int(Content-Length) / rfile.read raised with some message, or it produced a
content length and the raw bytes read. -/
inductive ReadOutcome where
  | failure (msg : String)
  | success (contentLength : Int) (raw : String)

/-- An HTTP response as the handler emits it: the status code sent by
send_response and the JSON value serialized into the body by json.dumps
(none for an empty body, as in do_HEAD). -/
structure HttpResponse where
  status : Nat
  body : Option Json

/-- Line 164: body = rfile.read(content_length) if content_length > 0
else the literal two-byte object text. -/
def effectiveBody (contentLength : Int) (raw : String) : String :=
  if 0 < contentLength then raw else "\x7b\x7d"

/-- Lines 167-171: data = json.loads(body); retention_hours =
data.get(\x7brh\x7d, 24); the bare except sets retention_hours = 24 when
json.loads raises or when data is not a dict (data.get raises
AttributeError then).  A dict lookup that finds the key returns the stored
value unchanged, whatever it is. -/
def retentionOf : Option Json → Json
  | some (.obj fields) => (lookupField fields "retention_hours").getD (.num 24)
  | _ => .num 24

/-- The error dict built at lines 211-215 when run_cleanup_operation raises. -/
def errorResponseFields (msg now : String) : List (String × Json) :=
  [("status", .str "error"),
   ("message", .str ("Cleanup failed in fallback mode: " ++ msg)),
   ("timestamp", .str now)]

/-- Line 195: the Python comparison result.get(status-key) == the string
success; true exactly when the field is present and is that string. -/
def statusIsSuccess (fields : List (String × Json)) : Bool :=
  match lookupField fields "status" with
  | some (.str s) => s == "success"
  | _ => false

/-- Lines 186-222: dispatch on the outcome of run_cleanup_operation.  On a
returned result, store it as last_cleanup_result, answer 200 when its
status field equals success and 500 otherwise, with the full result as
body.  On a raise, build the error dict, store it, and answer 500 with it.
Returns the response paired with the new last_cleanup_result. -/
def cleanupRespond (now : String) : CleanupOutcome → HttpResponse × Json
  | .returns fields =>
      let result := Json.obj fields
      (⟨if statusIsSuccess fields then 200 else 500, some result⟩, result)
  | .raises msg =>
      let er := Json.obj (errorResponseFields msg now)
      (⟨500, some er⟩, er)

/-- MinimalHealthHandler.do_POST (lines 156-237).  parse stands for
json.loads composed with utf-8 decoding (none when it raises), rco for
awaiting run_cleanup_operation, now for datetime.utcnow().isoformat(), s
for the current last_cleanup_result.  Returns the response paired with the
last_cleanup_result after the request. -/
def do_POST (parse : String → Option Json) (rco : Json → CleanupOutcome)
    (now : String) (s : Json) (path : String) (ro : ReadOutcome) :
    HttpResponse × Json :=
  if path = "/api/cleanup" then
    match ro with
    | .failure msg =>
        (⟨500, some (Json.obj [("error", .str msg), ("timestamp", .str now)])⟩, s)
    | .success cl raw =>
        cleanupRespond now (rco (retentionOf (parse (effectiveBody cl raw))))
  else
    (⟨404, some (Json.obj [("error", .str "Not Found"), ("path", .str path)])⟩, s)

/-- The health payload built at lines 140-147; errStr is str(e) for the
captured ImportError, now is datetime.now().isoformat(). -/
def healthBody (errStr now : String) : Json :=
  Json.obj
    [("status", .str "degraded"),
     ("message", .str "Crawler failed due to dependency conflicts - running fallback server"),
     ("timestamp", .str now),
     ("error", .str errStr),
     ("fix_attempted", .bool true),
     ("cleanup_api", .str "available")]

/-- MinimalHealthHandler.do_GET (lines 130-154).  s is the current
last_cleanup_result.  Note the final else answers 200 with a small
degraded payload, not 404. -/
def do_GET (s : Json) (errStr now : String) (path : String) : HttpResponse :=
  if path = "/api/cleanup/status" then
    ⟨200, some s⟩
  else if path = "/api/cleanup/health" ∨ path = "/health" ∨ path = "/" then
    ⟨200, some (healthBody errStr now)⟩
  else
    ⟨200, some (Json.obj [("status", .str "degraded"), ("message", .str "Fallback mode")])⟩

/-- MinimalHealthHandler.do_HEAD (lines 239-241): 200 with no body, for
every path. -/
def do_HEAD (_path : String) : HttpResponse :=
  ⟨200, none⟩

/-- The fields of the initial last_cleanup_result (lines 123-127). -/
def last_cleanup_result_init_fields : List (String × Json) :=
  [("timestamp", .null),
   ("status", .str "never_run"),
   ("message", .str "Cleanup unavailable in fallback mode")]

/-- The initial last_cleanup_result dict. -/
def last_cleanup_result_init : Json :=
  Json.obj last_cleanup_result_init_fields

/-- A request reaching the fallback server: the handler method invoked and
the path, with the body-read outcome for POST. -/
inductive Request where
  | get (path : String)
  | post (path : String) (ro : ReadOutcome)
  | head (path : String)

/-- Whether a request is handled by do_POST (the only method that can write
last_cleanup_result). -/
def Request.isPost : Request → Bool
  | .post _ _ => true
  | _ => false

/-- One request-response cycle of the fallback server: dispatch to the
handler method, returning the response and the last_cleanup_result after
the request.  do_GET and do_HEAD never write the shared state. -/
def handle (parse : String → Option Json) (rco : Json → CleanupOutcome)
    (errStr now : String) (s : Json) : Request → HttpResponse × Json
  | .get p => (do_GET s errStr now p, s)
  | .post p ro => do_POST parse rco now s p ro
  | .head p => (do_HEAD p, s)

/-- Serve a list of requests in order, threading last_cleanup_result
through, and return the final state. -/
def runRequests (parse : String → Option Json) (rco : Json → CleanupOutcome)
    (errStr now : String) (s : Json) : List Request → Json
  | [] => s
  | r :: rs => runRequests parse rco errStr now (handle parse rco errStr now s r).2 rs

/-- Outcome of the launch attempt at lines 107-110 (importing main from
azure_startup_main and calling it).  An ImportError is caught at line 112;
any other
exception is caught at line 263; success means main() took over the
process. -/
inductive LaunchOutcome where
  | launched
  | importFailure (msg : String)
  | otherFailure (msg : String)

/-- Outcome of constructing and running the HTTPServer at lines 248-254:
either it binds and serves, or it raises (caught at line 255). -/
inductive ServerStart where
  | ok
  | failed (msg : String)

/-- The tier the process ends up running, per the module-level control
flow: the primary application; the fallback health server carrying the
captured ImportError string; the 60-second wait loop of lines 259-261; or
the 300-second debugging loop of lines 271-273. -/
inductive Tier where
  | primaryApp
  | degradedServer (capturedError : String)
  | keepAlive60
  | keepAlive300

/-- The sleep interval, in seconds, of each keep-alive loop (lines 260 and
272); none for the tiers that are not wait loops. -/
def Tier.sleepInterval : Tier → Option Nat
  | .keepAlive60 => some 60
  | .keepAlive300 => some 300
  | _ => none

/-- Whether a tier is the fallback (degraded) health server. -/
def Tier.isDegradedServer : Tier → Bool
  | .degradedServer _ => true
  | _ => false

/-- Module-level tier selection (lines 107-273): only an ImportError
reaches the fallback-server block, and within it a server failure drops to
the 60-second loop; any non-ImportError exception goes directly to the
300-second debugging loop, never creating a server. -/
def supervise : LaunchOutcome → ServerStart → Tier
  | .launched, _ => .primaryApp
  | .importFailure msg, .ok => .degradedServer msg
  | .importFailure _, .failed _ => .keepAlive60
  | .otherFailure _, _ => .keepAlive300

/-- State of the 60-second keep-alive loop of lines 259-261: either still
in the while-True loop having completed some number of cycles, or exited
(no statement in the loop body can reach this state). -/
inductive GuardState where
  | looping (cyclesDone : Nat)
  | exited

/-- The observable effect of one loop cycle: the seconds slept and whether
the heartbeat line was printed. -/
structure CycleEffect where
  sleepSeconds : Nat
  heartbeatLogged : Bool

/-- One iteration of the while-True loop at lines 259-261: sleep 60
seconds, print the heartbeat, and come back to the loop head; the loop has
no break, return, or terminating statement. -/
def guardStep : GuardState → GuardState × Option CycleEffect
  | .looping k => (.looping (k + 1), some ⟨60, true⟩)
  | .exited => (.exited, none)

/-- The guard state after n iterations, starting at the loop entry of line
259. -/
def guardRun : Nat → GuardState
  | 0 => .looping 0
  | n + 1 => (guardStep (guardRun n)).1

/-- C1 counterexample: a launch failure that is not an ImportError — here a
RuntimeError raised from main() — does not fall through to the Degraded
Health Server tier, even though the server could have started: the process
goes directly to the 300-second debugging loop. -/
theorem C1_counterexample :
    supervise (.otherFailure "RuntimeError: boom") .ok = Tier.keepAlive300 ∧
    (supervise (.otherFailure "RuntimeError: boom") .ok).isDegradedServer = false :=
  ⟨rfl, rfl⟩

/-- C1 amended: only an ImportError raised while loading the primary
application falls through to the Degraded Health Server tier with the
captured error passed along (dropping to the 60-second loop when that
server fails to start); every other launch-time failure bypasses the
Degraded tier and enters the 300-second keep-alive loop instead. -/
theorem C1_launch_failure_tiers (msg e : String) (ss : ServerStart) :
    supervise (.importFailure msg) .ok = Tier.degradedServer msg ∧
    supervise (.importFailure msg) (.failed e) = Tier.keepAlive60 ∧
    supervise (.otherFailure msg) ss = Tier.keepAlive300 ∧
    (supervise (.otherFailure msg) ss).isDegradedServer = false := by
  cases ss <;> exact ⟨rfl, rfl, rfl, rfl⟩

/-- C2 counterexample: a GET to the unregistered path /nope answers 200
with the fallback-mode payload, not 404 with the Not-Found body. -/
theorem C2_counterexample :
    (do_GET last_cleanup_result_init "err" "T" "/nope").status = 200 ∧
    (do_GET last_cleanup_result_init "err" "T" "/nope").body =
      some (Json.obj [("status", Json.str "degraded"),
        ("message", Json.str "Fallback mode")]) :=
  ⟨rfl, rfl⟩

/-- C2 amended: a POST to any path other than /api/cleanup gets the 404
Not-Found body with the requested path; a GET to any path outside the four
registered GET routes answers 200 with the fallback-mode payload; and HEAD
answers 200 with an empty body on every path, without restriction. -/
theorem C2_unmatched_routes (parse : String → Option Json)
    (rco : Json → CleanupOutcome) (errStr now : String) (s : Json)
    (p : String) (ro : ReadOutcome) :
    (p ≠ "/api/cleanup" →
      handle parse rco errStr now s (.post p ro) =
        (⟨404, some (Json.obj [("error", Json.str "Not Found"),
          ("path", Json.str p)])⟩, s)) ∧
    (p ≠ "/api/cleanup/status" → p ≠ "/api/cleanup/health" → p ≠ "/health" →
      p ≠ "/" →
      handle parse rco errStr now s (.get p) =
        (⟨200, some (Json.obj [("status", Json.str "degraded"),
          ("message", Json.str "Fallback mode")])⟩, s)) ∧
    handle parse rco errStr now s (.head p) = (⟨200, none⟩, s) := by
  refine ⟨?_, ?_, rfl⟩
  · intro hpost
    simp [handle, do_POST, hpost]
  · intro h1 h2 h3 h4
    simp [handle, do_GET, h1, h2, h3, h4]

/-- C2 witness: the amended routing at the concrete cases that fall outside
the registered method-path pairs while using registered paths of the other
methods — POST to the GET-only route /health gets the 404 body, GET to the
POST-only route /api/cleanup gets the 200 fallback-mode payload, and HEAD
to the registered path / gets 200 with an empty body. -/
theorem C2_unmatched_routes_witness :
    handle (fun _ => none) (fun _ => CleanupOutcome.raises "x") "e" "T" Json.null
        (.post "/health" (.failure "m")) =
      (⟨404, some (Json.obj [("error", Json.str "Not Found"),
        ("path", Json.str "/health")])⟩, Json.null) ∧
    handle (fun _ => none) (fun _ => CleanupOutcome.raises "x") "e" "T" Json.null
        (.get "/api/cleanup") =
      (⟨200, some (Json.obj [("status", Json.str "degraded"),
        ("message", Json.str "Fallback mode")])⟩, Json.null) ∧
    handle (fun _ => none) (fun _ => CleanupOutcome.raises "x") "e" "T" Json.null
        (.head "/") = (⟨200, none⟩, Json.null) :=
  ⟨(C2_unmatched_routes (fun _ => none) (fun _ => CleanupOutcome.raises "x") "e" "T"
      Json.null "/health" (.failure "m")).1 (by decide),
   (C2_unmatched_routes (fun _ => none) (fun _ => CleanupOutcome.raises "x") "e" "T"
      Json.null "/api/cleanup" (.failure "m")).2.1
      (by decide) (by decide) (by decide) (by decide),
   (C2_unmatched_routes (fun _ => none) (fun _ => CleanupOutcome.raises "x") "e" "T"
      Json.null "/" (.failure "m")).2.2⟩

/-- C7: when the body-reading phase of POST /api/cleanup raises, the
response is 500 with the minimal body of error message and timestamp, and
last_cleanup_result is left unchanged. -/
theorem C7_handler_failure_minimal_body (parse : String → Option Json)
    (rco : Json → CleanupOutcome) (now : String) (s : Json) (msg : String) :
    do_POST parse rco now s "/api/cleanup" (.failure msg) =
      (⟨500, some (Json.obj [("error", Json.str msg),
        ("timestamp", Json.str now)])⟩, s) := by
  simp [do_POST]

/-- C8: on the initial last_cleanup_result, GET /api/cleanup/status answers
200 with that dict verbatim, whose status is never_run, whose timestamp is
null, and whose message is present. -/
theorem C8_initial_status_never_run (parse : String → Option Json)
    (rco : Json → CleanupOutcome) (errStr now : String) :
    handle parse rco errStr now last_cleanup_result_init (.get "/api/cleanup/status") =
      (⟨200, some last_cleanup_result_init⟩, last_cleanup_result_init) ∧
    lookupField last_cleanup_result_init_fields "status" = some (Json.str "never_run") ∧
    lookupField last_cleanup_result_init_fields "timestamp" = some Json.null ∧
    lookupField last_cleanup_result_init_fields "message" =
      some (Json.str "Cleanup unavailable in fallback mode") :=
  ⟨rfl, rfl, rfl, rfl⟩

/-- C9: when the fallback server fails to start after an ImportError, the
process enters the 60-second keep-alive loop; after any number of
iterations the loop is still running (it never reaches an exited state),
and each iteration sleeps 60 seconds and emits the heartbeat line. -/
theorem C9_keepalive_guard (importMsg serverMsg : String) (n : Nat) :
    supervise (.importFailure importMsg) (.failed serverMsg) = Tier.keepAlive60 ∧
    Tier.keepAlive60.sleepInterval = some 60 ∧
    guardRun n = GuardState.looping n ∧
    (guardStep (guardRun n)).1 = GuardState.looping (n + 1) ∧
    (guardStep (guardRun n)).2 = some ⟨60, true⟩ := by
  have h : ∀ m, guardRun m = GuardState.looping m := by
    intro m
    induction m with
    | zero => rfl
    | succ k ih => simp [guardRun, ih, guardStep]
  refine ⟨rfl, rfl, h n, ?_, ?_⟩ <;> rw [h n] <;> rfl

/-- C3: when run_cleanup_operation completes with a result, the response
status is 200 exactly when the status field of the result equals success
and 500 otherwise, the body is the full result, and the result is stored
as the new last_cleanup_result. -/
theorem C3_result_status_response (parse : String → Option Json)
    (rco : Json → CleanupOutcome) (now : String) (s : Json) (cl : Int)
    (raw : String) (fields : List (String × Json))
    (h : rco (retentionOf (parse (effectiveBody cl raw))) = .returns fields) :
    do_POST parse rco now s "/api/cleanup" (.success cl raw) =
      (⟨if statusIsSuccess fields then 200 else 500, some (Json.obj fields)⟩,
       Json.obj fields) := by
  simp [do_POST, h, cleanupRespond]

/-- C3 witness: a run returning a success result answers 200 with the
result as body and stores it. -/
theorem C3_result_status_response_witness :
    do_POST (fun _ => none)
        (fun _ => CleanupOutcome.returns [("status", Json.str "success")])
        "T" Json.null "/api/cleanup" (.success 0 "") =
      (⟨200, some (Json.obj [("status", Json.str "success")])⟩,
       Json.obj [("status", Json.str "success")]) :=
  (C3_result_status_response (fun _ => none)
    (fun _ => CleanupOutcome.returns [("status", Json.str "success")])
    "T" Json.null 0 "" [("status", Json.str "success")] rfl).trans rfl

/-- C4: when invoking run_cleanup_operation raises, the response is 500,
its body has status error and a non-empty message embedding the raised
error, and last_cleanup_result is overwritten with that same dict. -/
theorem C4_cleanup_raise_response (parse : String → Option Json)
    (rco : Json → CleanupOutcome) (now : String) (s : Json) (cl : Int)
    (raw : String) (msg : String)
    (h : rco (retentionOf (parse (effectiveBody cl raw))) = .raises msg) :
    do_POST parse rco now s "/api/cleanup" (.success cl raw) =
      (⟨500, some (Json.obj (errorResponseFields msg now))⟩,
       Json.obj (errorResponseFields msg now)) ∧
    lookupField (errorResponseFields msg now) "status" = some (Json.str "error") ∧
    lookupField (errorResponseFields msg now) "message" =
      some (Json.str ("Cleanup failed in fallback mode: " ++ msg)) ∧
    ("Cleanup failed in fallback mode: " ++ msg) ≠ "" := by
  refine ⟨by simp [do_POST, h, cleanupRespond], rfl, rfl, ?_⟩
  intro hc
  have hlen := congrArg String.length hc
  rw [String.length_append] at hlen
  have h0 : ("Cleanup failed in fallback mode: ").length = 0 :=
    Nat.eq_zero_of_add_eq_zero_right hlen
  exact absurd h0 (by decide)

/-- C4 witness: a raise with message boom produces the 500 error dict and
stores it. -/
theorem C4_cleanup_raise_response_witness :
    do_POST (fun _ => none) (fun _ => CleanupOutcome.raises "boom") "T" Json.null
        "/api/cleanup" (.success 0 "") =
      (⟨500, some (Json.obj (errorResponseFields "boom" "T"))⟩,
       Json.obj (errorResponseFields "boom" "T")) ∧
    lookupField (errorResponseFields "boom" "T") "status" = some (Json.str "error") ∧
    lookupField (errorResponseFields "boom" "T") "message" =
      some (Json.str ("Cleanup failed in fallback mode: " ++ "boom")) ∧
    ("Cleanup failed in fallback mode: " ++ "boom") ≠ "" :=
  C4_cleanup_raise_response (fun _ => none) (fun _ => CleanupOutcome.raises "boom")
    "T" Json.null 0 "" "boom" rfl

/-- C5: an absent or empty body (non-positive Content-Length, given that
the JSON decoder parses the empty-object literal to the empty dict), an
unparsable body, or a parsed dict without the retention_hours key all make
the handler invoke run_cleanup_operation with 24, and the request proceeds
to the cleanup response rather than failing. -/
theorem C5_malformed_body_defaults (parse : String → Option Json)
    (rco : Json → CleanupOutcome) (now : String) (s : Json) (cl : Int) (raw : String)
    (h : (cl ≤ 0 ∧ parse "\x7b\x7d" = some (Json.obj []))
       ∨ parse (effectiveBody cl raw) = none
       ∨ ∃ flds, parse (effectiveBody cl raw) = some (Json.obj flds) ∧
           lookupField flds "retention_hours" = none) :
    do_POST parse rco now s "/api/cleanup" (.success cl raw) =
      cleanupRespond now (rco (Json.num 24)) := by
  have hr : retentionOf (parse (effectiveBody cl raw)) = Json.num 24 := by
    rcases h with ⟨hcl, hp⟩ | hp | ⟨flds, hp, hl⟩
    · have hb : effectiveBody cl raw = "\x7b\x7d" := by
        simp only [effectiveBody]
        rw [if_neg (by omega)]
      rw [hb, hp]
      rfl
    · rw [hp]
      rfl
    · rw [hp]
      simp [retentionOf, hl]
  simp [do_POST, hr]

/-- C5 witness: an unparsable body leads to the cleanup operation being
invoked with 24. -/
theorem C5_malformed_body_defaults_witness :
    do_POST (fun _ => none)
        (fun j => CleanupOutcome.returns [("retention_hours_applied", j)])
        "T" Json.null "/api/cleanup" (.success 8 "not json") =
      cleanupRespond "T"
        (CleanupOutcome.returns [("retention_hours_applied", Json.num 24)]) :=
  C5_malformed_body_defaults (fun _ => none)
    (fun j => CleanupOutcome.returns [("retention_hours_applied", j)])
    "T" Json.null 8 "not json" (Or.inr (Or.inl rfl))

/-- Frame lemma: do_GET and do_HEAD never write last_cleanup_result, so
serving any sequence of non-POST requests leaves the shared state
unchanged. -/
theorem runRequests_nonPost_frame (parse : String → Option Json)
    (rco : Json → CleanupOutcome) (errStr now : String) :
    ∀ (rs : List Request) (s : Json), (∀ r ∈ rs, r.isPost = false) →
      runRequests parse rco errStr now s rs = s := by
  intro rs
  induction rs with
  | nil => intro s _; rfl
  | cons r rs ih =>
      intro s h
      have hr : r.isPost = false := h r (List.mem_cons_self r rs)
      have hstep : (handle parse rco errStr now s r).2 = s := by
        cases r with
        | get p => rfl
        | head p => rfl
        | post p ro => simp [Request.isPost] at hr
      simp only [runRequests]
      rw [hstep]
      exact ih s (fun x hx => h x (List.mem_cons_of_mem _ hx))

/-- C6: after a POST /api/cleanup whose cleanup run returns a result with
status success, the result is stored, and a later GET /api/cleanup/status
— with any non-POST requests in between — answers 200 with exactly that
result. -/
theorem C6_status_read_after_success (parse : String → Option Json)
    (rco : Json → CleanupOutcome) (errStr now : String) (s : Json) (cl : Int)
    (raw : String) (fields : List (String × Json)) (rs : List Request)
    (hrun : rco (retentionOf (parse (effectiveBody cl raw))) = .returns fields)
    (_hsucc : statusIsSuccess fields = true)
    (hrs : ∀ r ∈ rs, r.isPost = false) :
    (handle parse rco errStr now s (.post "/api/cleanup" (.success cl raw))).2 =
      Json.obj fields ∧
    handle parse rco errStr now
        (runRequests parse rco errStr now
          (handle parse rco errStr now s (.post "/api/cleanup" (.success cl raw))).2 rs)
        (.get "/api/cleanup/status") =
      (⟨200, some (Json.obj fields)⟩, Json.obj fields) := by
  have h2 : (handle parse rco errStr now s (.post "/api/cleanup" (.success cl raw))).2 =
      Json.obj fields := by
    simp [handle, do_POST, hrun, cleanupRespond]
  refine ⟨h2, ?_⟩
  rw [h2, runRequests_nonPost_frame parse rco errStr now rs (Json.obj fields) hrs]
  rfl

/-- C6 witness: a successful cleanup POST followed by a health GET and then
the status GET, which returns the stored success result. -/
theorem C6_status_read_after_success_witness :
    (handle (fun _ => none)
        (fun _ => CleanupOutcome.returns [("status", Json.str "success")]) "e" "T"
        Json.null (.post "/api/cleanup" (.success 0 ""))).2 =
      Json.obj [("status", Json.str "success")] ∧
    handle (fun _ => none)
        (fun _ => CleanupOutcome.returns [("status", Json.str "success")]) "e" "T"
        (runRequests (fun _ => none)
          (fun _ => CleanupOutcome.returns [("status", Json.str "success")]) "e" "T"
          (handle (fun _ => none)
            (fun _ => CleanupOutcome.returns [("status", Json.str "success")]) "e" "T"
            Json.null (.post "/api/cleanup" (.success 0 ""))).2
          [Request.get "/health"])
        (.get "/api/cleanup/status") =
      (⟨200, some (Json.obj [("status", Json.str "success")])⟩,
       Json.obj [("status", Json.str "success")]) :=
  C6_status_read_after_success (fun _ => none)
    (fun _ => CleanupOutcome.returns [("status", Json.str "success")]) "e" "T"
    Json.null 0 "" [("status", Json.str "success")] [Request.get "/health"]
    rfl rfl
    (by
      intro r hr
      rw [List.mem_singleton] at hr
      subst hr
      rfl)

/-- C10: when the body parses to a dict that contains the retention_hours
key, the stored value is handed to run_cleanup_operation unchanged,
whatever it is — negative, null, a string, or any other JSON value. -/
theorem C10_retention_forwarded (parse : String → Option Json)
    (rco : Json → CleanupOutcome) (now : String) (s : Json) (cl : Int)
    (raw : String) (flds : List (String × Json)) (v : Json)
    (hp : parse (effectiveBody cl raw) = some (Json.obj flds))
    (hv : lookupField flds "retention_hours" = some v) :
    do_POST parse rco now s "/api/cleanup" (.success cl raw) =
      cleanupRespond now (rco v) := by
  have hr : retentionOf (parse (effectiveBody cl raw)) = v := by
    rw [hp]
    simp [retentionOf, hv]
  simp [do_POST, hr]

/-- C10 witness: a negative retention_hours of -5 is forwarded as-is to the
cleanup operation. -/
theorem C10_retention_forwarded_witness :
    do_POST (fun _ => some (Json.obj [("retention_hours", Json.num (-5))]))
        (fun j => CleanupOutcome.returns [("retention_hours_applied", j)])
        "T" Json.null "/api/cleanup" (.success 3 "body") =
      cleanupRespond "T"
        (CleanupOutcome.returns [("retention_hours_applied", Json.num (-5))]) :=
  C10_retention_forwarded (fun _ => some (Json.obj [("retention_hours", Json.num (-5))]))
    (fun j => CleanupOutcome.returns [("retention_hours_applied", j)])
    "T" Json.null 3 "body" [("retention_hours", Json.num (-5))] (Json.num (-5))
    rfl rfl
